import Mathlib

/-!
Verification of the GReX SNAP bring-up routines against their design
specification.

The repository contains two variants of the same bring-up script:
src/snapctl/main.py (programming, 10 GbE network bring-up, static register
configuration, ADC calibration, clock estimate) and src/snap_bringup/main.py
(programming, ADC calibration, static register configuration, clock
estimate; no network stage).

The bring-up code is straight-line imperative code acting on a hardware
handle.  We embed it as a function from a hardware environment `Env` (the
values the board returns to the reads the code performs) to the trace of
observable hardware/driver actions (`List Event`), translated line by line
from the Python source.  Debug/info log calls that carry no decision are
omitted from the trace; the error/warning/success logs that the spec's
verdict language refers to are kept.
-/

/-- The hardware environment of one bring-up run: the values the board
returns for each read the code performs.  `txOverflowCount` is part of the
hardware state the spec talks about; as the theorems show, the code never
reads it. -/
structure Env where
  adc16Locked : Bool
  lineClockFails : List Nat
  frameClockFails : List Nat
  rampTestFails : List Nat
  gbe1Linkup : Int
  txOverflowCount : Int
  fpgaClockEstimate : Int
deriving Repr, DecidableEq

/-- Observable hardware/driver actions performed by the bring-up code, one
constructor per call site shape in the Python source.  `adcSpiTermWrite` and
`adcSpiDriveWrite` stand for the two `adc.adc.write(val, rid)` calls whose
payloads are computed by the external HMCAD1511 driver masks
(`_getMask`/`_set`), which are out of scope per the spec. -/
inductive Event where
  | uploadProgram
  | getSystemInfo
  | writeInt (reg : String) (v : Int)
  | readInt (reg : String) (v : Int)
  | configureCore
  | setArpEntry
  | clkswSetSwitch (s : String)
  | sleep (ms : Nat)
  | adcReset
  | selectAdc (sel : Option (List Nat))
  | adcInit
  | adcSpiTermWrite
  | adcSpiDriveWrite
  | setOperatingMode (channels : Int)
  | progUserImage
  | setDemux (n : Int)
  | alignLineClock (fails : List Nat)
  | alignFrameClock (fails : List Nat)
  | rampTest (fails : List Nat)
  | getWord (reg : String) (v : Bool)
  | selectInput (m : List Int)
  | setGain (g : Int)
  | adcInitRate (rate : Int) (ch : Int)
  | rampTestRetry
  | estimateClock
  | logError (msg : String)
  | logWarning (msg : String)
  | logSuccess (msg : String)
deriving Repr, DecidableEq

/-- The `AdcPair` enumeration, identical in both source files; the integer
encodings are register contract. -/
inductive AdcPair where
  | A1_2
  | A3_4
  | B1_2
  | B3_4
  | C1_2
  | C3_4
deriving Repr, DecidableEq

/-- `AdcPair.value` in the Python `Enum`. -/
def AdcPair.val : AdcPair → Int
  | .A1_2 => 0
  | .A3_4 => 1
  | .B1_2 => 2
  | .B3_4 => 3
  | .C1_2 => 4
  | .C3_4 => 5

/-- `chan_1_select`: writes the selected pair encoding to `ch_1_sel`
(identical in both source files). -/
def chan_1_select (p : AdcPair) : List Event :=
  [.writeInt "ch_1_sel" p.val]

/-- `chan_2_select`: writes the selected pair encoding to `ch_2_sel`
(identical in both source files). -/
def chan_2_select (p : AdcPair) : List Event :=
  [.writeInt "ch_2_sel" p.val]

/-- `set_requant_gain` (snapctl/main.py lines 69-74): asserts
`0 < gain < 2047` before the single hardware write, then writes
`int(round(gain * 32))`.  The Python parameter is annotated `int`, so
`int(round(gain * 32))` is exactly `gain * 32`.  A failed `assert` raises
before any write, modelled as `Except.error` with no events. -/
def set_requant_gain (gain : Int) : Except String (List Event) :=
  if 0 < gain ∧ gain < 2047 then
    Except.ok [.writeInt "requant_gain" (gain * 32)]
  else
    Except.error "InvalidArgument"

/-- Events of a fallible call when it succeeds (a Python `assert` failure
would abort the whole run). -/
def okEvents : Except String (List Event) → List Event
  | .ok es => es
  | .error _ => []

/-- `program_snap`, identical in both source files: upload the bitstream
and re-resolve the register map from the same file. -/
def program_snap : List Event :=
  [.uploadProgram, .logSuccess "SNAP programmed", .getSystemInfo]

namespace snapctl

/-- `setup_adcs` (snapctl/main.py lines 87-180), translated line by line.
The returned `Bool` is `false` exactly when the Python function takes the
early `return False` on the failed `ADC16_LOCKED` check, and `true` when it
runs to the end (Python returns `None`).  The alignment/ramp failure sets
come from the environment; nonempty sets are logged as warnings only. -/
def setup_adcs (channels : Int) (env : Env) : List Event × Bool :=
  let pre : List Event :=
    [.clkswSetSwitch "b", .sleep 500, .adcReset, .selectAdc none, .adcInit,
     .selectAdc (some [1, 2]), .adcSpiTermWrite, .adcSpiDriveWrite,
     .selectAdc none, .setOperatingMode channels,
     .progUserImage, .selectAdc none, .clkswSetSwitch "b", .sleep 500,
     .setDemux 1, .getWord "ADC16_LOCKED" env.adc16Locked]
  if env.adc16Locked then
    (pre
      ++ [.sleep 500, .alignLineClock env.lineClockFails]
      ++ (if env.lineClockFails.length > 0 then
            [.logWarning "alignLineClock failed"] else [])
      ++ [.alignFrameClock env.frameClockFails]
      ++ (if env.frameClockFails.length > 0 then
            [.logWarning "alignFrameClock failed"] else [])
      ++ [.rampTest env.rampTestFails]
      ++ (if env.rampTestFails.length > 0 then
            [.logWarning "rampTest failed"] else [])
      ++ [.setDemux channels, .selectInput [1, 1, 1, 1],
          .setGain 4],
     true)
  else
    (pre ++ [.logError "MMCM not locked."], false)

/-- `setup_tengbe` (snapctl/main.py lines 183-222): disable tx, configure
the core, write destination registers, seed ARP, pulse reset, enable tx,
wait 2 s, read `gbe1_linkup` once and log success when it reads 1.  No
other read is performed and nothing is returned. -/
def setup_tengbe (destIp destPort : Int) (env : Env) : List Event :=
  [.writeInt "tx_en" 0, .configureCore,
   .writeInt "dest_port" destPort, .writeInt "dest_ip" destIp,
   .setArpEntry,
   .writeInt "tx_rst" 1, .writeInt "tx_rst" 0, .writeInt "tx_en" 1,
   .sleep 2000, .readInt "gbe1_linkup" env.gbe1Linkup]
  ++ (if env.gbe1Linkup = 1 then [.logSuccess "10 GbE link is up"] else [])

/-- `startup` (snapctl/main.py lines 244-298): program, network bring-up,
static register configuration (fft_shift, channel selects, requant gain 1),
ADC calibration, clock estimate.  The Boolean returned by `setup_adcs` is
discarded, exactly as in the source. -/
def startup (channels destIp destPort : Int) (env : Env) : List Event :=
  program_snap
  ++ setup_tengbe destIp destPort env
  ++ [.writeInt "fft_shift" 4095]
  ++ chan_1_select .A1_2
  ++ chan_2_select .B1_2
  ++ okEvents (set_requant_gain 1)
  ++ (setup_adcs channels env).1
  ++ [.estimateClock, .logSuccess "Setup complete"]

end snapctl

namespace snap_bringup

/-- `setup_adcs` (snap_bringup/main.py lines 53-68): init the ADC with the
caller's channel count, run the library ramp test with its internal retry,
set the two fixed input crossbars, and apply the caller's gain.  The Python
gain is a `float` passed through unchanged to `adc.set_gain`; it is
modelled as `Int` since only the pass-through matters here. -/
def setup_adcs (channels gain : Int) : List Event :=
  [.selectAdc none, .adcInitRate 500 channels, .rampTestRetry,
   .selectAdc (some [0]), .selectInput [1, 1, 2, 2],
   .selectAdc (some [1]), .selectInput [2, 2, 3, 3],
   .selectAdc none, .setGain gain, .logSuccess "ADCs configured"]

/-- `startup` (snap_bringup/main.py lines 90-123): program, ADC
calibration, then the static channel selects, then the clock estimate.  No
network stage exists in this variant. -/
def startup (channels gain : Int) : List Event :=
  program_snap
  ++ setup_adcs channels gain
  ++ chan_1_select .A1_2
  ++ chan_2_select .B1_2
  ++ [.estimateClock, .logSuccess "Setup complete"]

end snap_bringup

/-! ## Stage classification

The spec's BringupSequencer stage pipeline, and a classifier mapping each
observable action to the stage it belongs to.  Sleeps and log calls belong
to no stage. -/

/-- The spec's bring-up pipeline stages. -/
inductive Stage where
  | program
  | networkBringup
  | staticRegisterConfig
  | adcCalibration
  | clockEstimate
deriving Repr, DecidableEq

/-- Which stage an observable action belongs to.  The registers named in
`writeInt`/`readInt` events determine the stage: `tx_en`, `tx_rst`,
`dest_port`, `dest_ip` and the `gbe1_linkup` read belong to the network
bring-up; `fft_shift`, `ch_1_sel`, `ch_2_sel` and `requant_gain` are the
static operational registers.  All ADC driver calls belong to calibration. -/
def stageOf : Event → Option Stage
  | .uploadProgram => some .program
  | .getSystemInfo => some .program
  | .configureCore => some .networkBringup
  | .setArpEntry => some .networkBringup
  | .readInt _ _ => some .networkBringup
  | .writeInt r _ =>
    if r = "fft_shift" ∨ r = "ch_1_sel" ∨ r = "ch_2_sel" ∨ r = "requant_gain"
    then some .staticRegisterConfig
    else some .networkBringup
  | .clkswSetSwitch _ => some .adcCalibration
  | .adcReset => some .adcCalibration
  | .selectAdc _ => some .adcCalibration
  | .adcInit => some .adcCalibration
  | .adcSpiTermWrite => some .adcCalibration
  | .adcSpiDriveWrite => some .adcCalibration
  | .setOperatingMode _ => some .adcCalibration
  | .progUserImage => some .adcCalibration
  | .setDemux _ => some .adcCalibration
  | .alignLineClock _ => some .adcCalibration
  | .alignFrameClock _ => some .adcCalibration
  | .rampTest _ => some .adcCalibration
  | .getWord _ _ => some .adcCalibration
  | .selectInput _ => some .adcCalibration
  | .setGain _ => some .adcCalibration
  | .adcInitRate _ _ => some .adcCalibration
  | .rampTestRetry => some .adcCalibration
  | .estimateClock => some .clockEstimate
  | .sleep _ => none
  | .logError _ => none
  | .logWarning _ => none
  | .logSuccess _ => none

/-- Collapse consecutive duplicates, so a trace's stage list shows each
contiguous block of same-stage actions once, in execution order. -/
def squeeze : List Stage → List Stage
  | [] => []
  | [s] => [s]
  | s :: t :: rest =>
    if s = t then squeeze (t :: rest) else s :: squeeze (t :: rest)

/-- The sequence of stages a trace passes through, in order, with each
contiguous block collapsed to one entry. -/
def stagesOf (tr : List Event) : List Stage :=
  squeeze (tr.filterMap stageOf)

/-- The fixed stage order the spec prescribes. -/
def fixedStageOrder : List Stage :=
  [.program, .networkBringup, .staticRegisterConfig, .adcCalibration,
   .clockEstimate]

/-! ## Trace observations used by the claims -/

/-- Is this event an alignment or test step
(`alignLineClock`/`alignFrameClock`/`rampTest`, either variant)? -/
def isAlignOrTest : Event → Bool
  | .alignLineClock _ => true
  | .alignFrameClock _ => true
  | .rampTest _ => true
  | .rampTestRetry => true
  | _ => false

/-- Is this event a register read? -/
def isRead : Event → Bool
  | .readInt _ _ => true
  | _ => false

/-- Is this event a `setDemux` call? -/
def isSetDemux : Event → Bool
  | .setDemux _ => true
  | _ => false

/-- Is this event a `selectInput` call? -/
def isSelectInput : Event → Bool
  | .selectInput _ => true
  | _ => false

/-- Is this event a `set_gain` call? -/
def isSetGain : Event → Bool
  | .setGain _ => true
  | _ => false

/-- Number of `ADC16_LOCKED` lock checks in a trace: one per calibration
attempt, since the check is performed exactly once per run of the
calibration sequence. -/
def lockChecks (tr : List Event) : Nat :=
  tr.countP fun e =>
    match e with
    | .getWord "ADC16_LOCKED" _ => true
    | _ => false

/-! ## Helper lemmas about `squeeze` and the per-routine stage blocks -/

theorem squeeze_replicate_succ (n : Nat) (s : Stage) (l : List Stage) :
    squeeze (List.replicate (n + 1) s ++ l) = squeeze (s :: l) := by
  induction n with
  | zero => rfl
  | succ k ih =>
    have h1 : List.replicate (k + 2) s ++ l
        = s :: (List.replicate (k + 1) s ++ l) := by
      simp [List.replicate_succ]
    have h2 : List.replicate (k + 1) s ++ l
        = s :: (List.replicate k s ++ l) := by
      simp [List.replicate_succ]
    rw [h1, h2, squeeze, if_pos rfl, ← h2, ih]

theorem squeeze_cons_replicate (s t : Stage) (h : s ≠ t) (n : Nat)
    (l : List Stage) :
    squeeze (s :: (List.replicate (n + 1) t ++ l)) = s :: squeeze (t :: l) := by
  have h1 : List.replicate (n + 1) t ++ l
      = t :: (List.replicate n t ++ l) := by
    simp [List.replicate_succ]
  rw [h1, squeeze, if_neg h, ← h1, squeeze_replicate_succ]

/-- Collapsing four nonempty constant stage blocks followed by the clock
estimate yields exactly the fixed stage order, whatever the block sizes. -/
theorem squeeze_blocks (a b c d : Nat) :
    squeeze (List.replicate (a + 1) Stage.program
      ++ (List.replicate (b + 1) Stage.networkBringup
      ++ (List.replicate (c + 1) Stage.staticRegisterConfig
      ++ (List.replicate (d + 1) Stage.adcCalibration
      ++ [Stage.clockEstimate])))) = fixedStageOrder := by
  rw [squeeze_replicate_succ,
    squeeze_cons_replicate _ _ (by decide) b,
    squeeze_cons_replicate _ _ (by decide) c,
    squeeze_cons_replicate _ _ (by decide) d]
  rfl

/-- The programming step contributes a nonempty block of `program` stage
actions. -/
theorem filterMap_program_snap :
    program_snap.filterMap stageOf = List.replicate 2 Stage.program := rfl

/-- The network bring-up contributes exactly nine `networkBringup` stage
actions, whatever the environment. -/
theorem filterMap_setup_tengbe (d p : Int) (env : Env) :
    (snapctl.setup_tengbe d p env).filterMap stageOf
      = List.replicate 9 Stage.networkBringup := by
  unfold snapctl.setup_tengbe
  split_ifs <;> rfl

/-- The filtered stage sequence of `snapctl.setup_adcs` is a nonempty
constant `adcCalibration` block in every environment. -/
theorem filterMap_setup_adcs (ch : Int) (env : Env) :
    ∃ k, (snapctl.setup_adcs ch env).1.filterMap stageOf
      = List.replicate (k + 1) Stage.adcCalibration := by
  obtain ⟨locked, lf, ff, rf, link, ovf, clk⟩ := env
  unfold snapctl.setup_adcs
  cases locked
  · exact ⟨13, rfl⟩
  · rw [if_pos rfl]
    split_ifs <;> exact ⟨19, rfl⟩

theorem lockChecks_append (a b : List Event) :
    lockChecks (a ++ b) = lockChecks a + lockChecks b :=
  List.countP_append _ _ _

theorem lockChecks_setup_tengbe (d p : Int) (env : Env) :
    lockChecks (snapctl.setup_tengbe d p env) = 0 := by
  unfold lockChecks snapctl.setup_tengbe
  split_ifs <;> rfl

/-- Each run of the snapctl calibration sequence performs exactly one
ADC16_LOCKED lock check, in every environment. -/
theorem lockChecks_setup_adcs (ch : Int) (env : Env) :
    lockChecks (snapctl.setup_adcs ch env).1 = 1 := by
  obtain ⟨locked, lf, ff, rf, link, ovf, clk⟩ := env
  unfold lockChecks snapctl.setup_adcs
  cases locked
  · rfl
  · rw [if_pos rfl]
    split_ifs <;> rfl

/-! ## Claim theorems -/

/-- C2 (amended): the snapctl bring-up executes its stages in the fixed
order Program, NetworkBringup, StaticRegisterConfig, AdcCalibration,
ClockEstimate in every environment, so the stage reached advances
monotonically and StaticRegisterConfig never precedes the completion of
NetworkBringup; the snap_bringup variant instead executes Program,
AdcCalibration, StaticRegisterConfig, ClockEstimate with no network
stage. -/
theorem startup_stage_order (channels destIp destPort : Int) (env : Env) :
    stagesOf (snapctl.startup channels destIp destPort env) = fixedStageOrder
      ∧ ∀ ch g : Int, stagesOf (snap_bringup.startup ch g)
        = [Stage.program, Stage.adcCalibration, Stage.staticRegisterConfig,
           Stage.clockEstimate] := by
  constructor
  · obtain ⟨k, hk⟩ := filterMap_setup_adcs channels env
    unfold stagesOf snapctl.startup
    simp only [List.filterMap_append, filterMap_setup_tengbe, hk]
    exact squeeze_blocks 1 8 3 k
  · intro ch g
    rfl

/-- C2 counterexample: the snap_bringup variant of the bring-up does not
follow the claimed fixed stage order (its ADC calibration precedes the
static register configuration and it has no network stage). -/
theorem startup_stage_order_cx :
    stagesOf (snap_bringup.startup 2 50) ≠ fixedStageOrder := by
  decide

/-- C3: for every gain strictly inside (0, 2047), `set_requant_gain`
writes exactly round(gain * 32) (for the integer-typed gain this is
gain * 32) to `requant_gain`, and that value fits the 16-bit destination
register (11 integer + 5 fractional bits), so clamping to the register
width leaves it unchanged. -/
theorem set_requant_gain_in_range (g : Int) (h0 : 0 < g) (h1 : g < 2047) :
    set_requant_gain g = Except.ok [Event.writeInt "requant_gain" (g * 32)]
      ∧ g * 32 < 65536 := by
  refine ⟨?_, by omega⟩
  unfold set_requant_gain
  rw [if_pos ⟨h0, h1⟩]

/-- C3 witness: gain 100 writes 3200. -/
theorem set_requant_gain_in_range_witness :
    set_requant_gain 100 = Except.ok [Event.writeInt "requant_gain" (100 * 32)]
      ∧ (100 : Int) * 32 < 65536 :=
  set_requant_gain_in_range 100 (by decide) (by decide)

/-- C4: for every gain outside the open interval (0, 2047), endpoints
included, `set_requant_gain` fails with InvalidArgument (the Python assert
raises) and performs zero register writes. -/
theorem set_requant_gain_out_of_range (g : Int) (h : g ≤ 0 ∨ 2047 ≤ g) :
    set_requant_gain g = Except.error "InvalidArgument" := by
  unfold set_requant_gain
  rw [if_neg]
  rintro ⟨h0, h1⟩
  omega

/-- C4 witness: the endpoint gain 2047 is rejected with no write. -/
theorem set_requant_gain_out_of_range_witness :
    set_requant_gain 2047 = Except.error "InvalidArgument" :=
  set_requant_gain_out_of_range 2047 (Or.inr le_rfl)

/-- C1 (evaluation at the failing input): when the ADC16_LOCKED check
reads false, `setup_adcs` returns False and skips every alignment/ramp
step — but `startup` discards this Boolean, so the clock estimate still
runs and "Setup complete" is still logged: the run does not end with a
Fatal verdict. -/
theorem lock_failure_not_fatal (channels destIp destPort : Int) (env : Env)
    (h : env.adc16Locked = false) :
    (snapctl.setup_adcs channels env).2 = false
      ∧ (snapctl.setup_adcs channels env).1.countP isAlignOrTest = 0
      ∧ Event.estimateClock ∈ snapctl.startup channels destIp destPort env
      ∧ Event.logSuccess "Setup complete"
          ∈ snapctl.startup channels destIp destPort env := by
  obtain ⟨locked, lf, ff, rf, link, ovf, clk⟩ := env
  subst h
  refine ⟨rfl, rfl, ?_, ?_⟩ <;> simp [snapctl.startup]

/-- C1 witness: a concrete unlocked run. -/
theorem lock_failure_not_fatal_witness :
    (snapctl.setup_adcs 2 ⟨false, [], [], [], 1, 0, 200⟩).2 = false
      ∧ (snapctl.setup_adcs 2
          ⟨false, [], [], [], 1, 0, 200⟩).1.countP isAlignOrTest = 0
      ∧ Event.estimateClock
          ∈ snapctl.startup 2 0 0 ⟨false, [], [], [], 1, 0, 200⟩
      ∧ Event.logSuccess "Setup complete"
          ∈ snapctl.startup 2 0 0 ⟨false, [], [], [], 1, 0, 200⟩ :=
  lock_failure_not_fatal 2 0 0 ⟨false, [], [], [], 1, 0, 200⟩ rfl

/-- C5 (amended): the calibration sequence is attempted exactly once per
bring-up invocation — every snapctl run performs exactly one ADC16_LOCKED
lock check, so a failed attempt is never retried by this repository's
code (step-internal retries live in the external ADC library). -/
theorem calibration_single_attempt (channels destIp destPort : Int)
    (env : Env) :
    lockChecks (snapctl.startup channels destIp destPort env) = 1 := by
  simp only [snapctl.startup, lockChecks_append, lockChecks_setup_tengbe,
    lockChecks_setup_adcs]
  rfl

/-- C5 counterexample: a run whose lock check fails (a failing calibration
attempt) still runs the calibration sequence exactly once — there is no
bound of 3 attempts. -/
theorem calibration_single_attempt_cx :
    lockChecks (snapctl.startup 2 0 0 ⟨false, [], [], [], 1, 0, 200⟩) = 1
      ∧ lockChecks (snapctl.startup 2 0 0 ⟨false, [], [], [], 1, 0, 200⟩)
          ≠ 3 := by
  decide

/-- C6 (amended): the network bring-up never reads a transmit overflow
counter: its trace does not depend on the overflow count, and its only
register read is the single gbe1_linkup poll — so no Overflowed verdict
exists and a nonzero overflow count cannot fail the bring-up. -/
theorem tengbe_ignores_overflow (destIp destPort : Int) (env : Env)
    (n : Int) :
    snapctl.setup_tengbe destIp destPort { env with txOverflowCount := n }
        = snapctl.setup_tengbe destIp destPort env
      ∧ (snapctl.setup_tengbe destIp destPort env).countP isRead = 1
      ∧ (snapctl.setup_tengbe destIp destPort env).filter isRead
          = [Event.readInt "gbe1_linkup" env.gbe1Linkup] := by
  obtain ⟨locked, lf, ff, rf, link, ovf, clk⟩ := env
  refine ⟨rfl, ?_, ?_⟩ <;>
    · unfold snapctl.setup_tengbe
      split_ifs <;> rfl

/-- C6 counterexample: with the overflow counter at 5 (nonzero) after the
settle window, the bring-up performs no overflow read, reports the link
up, and runs to completion — no Overflowed verdict, nothing fatal. -/
theorem tengbe_overflow_cx :
    (snapctl.setup_tengbe 0 0 ⟨true, [], [], [], 1, 5, 200⟩).countP isRead
        = 1
      ∧ Event.logSuccess "10 GbE link is up"
          ∈ snapctl.setup_tengbe 0 0 ⟨true, [], [], [], 1, 5, 200⟩
      ∧ Event.logSuccess "Setup complete"
          ∈ snapctl.startup 2 0 0 ⟨true, [], [], [], 1, 5, 200⟩ := by
  decide

/-- C7 (amended): when the single link-up poll after the 2 s settle reads
anything but 1, the code merely omits the link success log: no LinkDown
verdict exists, and the bring-up still proceeds to ADC calibration and the
clock estimate and logs "Setup complete". -/
theorem linkdown_not_fatal (channels destIp destPort : Int) (env : Env)
    (h : env.gbe1Linkup ≠ 1) :
    Event.logSuccess "10 GbE link is up"
        ∉ snapctl.setup_tengbe destIp destPort env
      ∧ Event.estimateClock ∈ snapctl.startup channels destIp destPort env
      ∧ Event.logSuccess "Setup complete"
          ∈ snapctl.startup channels destIp destPort env := by
  refine ⟨?_, ?_, ?_⟩
  · unfold snapctl.setup_tengbe
    rw [if_neg h]
    simp
  · simp [snapctl.startup]
  · simp [snapctl.startup]

/-- C7 witness: a concrete link-down run. -/
theorem linkdown_not_fatal_witness :
    Event.logSuccess "10 GbE link is up"
        ∉ snapctl.setup_tengbe 0 0 ⟨true, [], [], [], 0, 0, 200⟩
      ∧ Event.estimateClock
          ∈ snapctl.startup 2 0 0 ⟨true, [], [], [], 0, 0, 200⟩
      ∧ Event.logSuccess "Setup complete"
          ∈ snapctl.startup 2 0 0 ⟨true, [], [], [], 0, 0, 200⟩ :=
  linkdown_not_fatal 2 0 0 ⟨true, [], [], [], 0, 0, 200⟩ (by decide)

/-- C7 counterexample: with link-up reading 0 after the settle interval
the run is not fatal: every later stage (static configuration, ADC
calibration, clock estimate) still executes and the run completes. -/
theorem linkdown_cx :
    stagesOf (snapctl.startup 2 0 0 ⟨true, [], [], [], 0, 0, 200⟩)
        = fixedStageOrder
      ∧ Event.logSuccess "Setup complete"
          ∈ snapctl.startup 2 0 0 ⟨true, [], [], [], 0, 0, 200⟩ := by
  decide

/-- C8: when the lock check reads true, a calibration attempt with any
(possibly nonempty) line-clock, frame-clock or ramp-test failure sets is
treated as a warning only: each nonempty failure set is logged as a
warning, the remaining calibration steps (demux restore, input select,
gain set) all run, no error is raised, and the run proceeds to the clock
estimate stage. -/
theorem degraded_cal_warns (channels destIp destPort : Int) (env : Env)
    (h : env.adc16Locked = true) :
    (snapctl.setup_adcs channels env).2 = true
      ∧ Event.setDemux channels ∈ (snapctl.setup_adcs channels env).1
      ∧ Event.selectInput [1, 1, 1, 1] ∈ (snapctl.setup_adcs channels env).1
      ∧ Event.setGain 4 ∈ (snapctl.setup_adcs channels env).1
      ∧ (env.lineClockFails ≠ [] →
          Event.logWarning "alignLineClock failed"
            ∈ (snapctl.setup_adcs channels env).1)
      ∧ (env.frameClockFails ≠ [] →
          Event.logWarning "alignFrameClock failed"
            ∈ (snapctl.setup_adcs channels env).1)
      ∧ (env.rampTestFails ≠ [] →
          Event.logWarning "rampTest failed"
            ∈ (snapctl.setup_adcs channels env).1)
      ∧ Event.logError "MMCM not locked."
          ∉ (snapctl.setup_adcs channels env).1
      ∧ Event.estimateClock ∈ snapctl.startup channels destIp destPort env := by
  obtain ⟨locked, lf, ff, rf, link, ovf, clk⟩ := env
  subst h
  refine ⟨rfl, ?_, ?_, ?_, ?_, ?_, ?_, ?_, ?_⟩
  · unfold snapctl.setup_adcs
    rw [if_pos rfl]
    split_ifs <;> simp
  · unfold snapctl.setup_adcs
    rw [if_pos rfl]
    split_ifs <;> simp
  · unfold snapctl.setup_adcs
    rw [if_pos rfl]
    split_ifs <;> simp
  · intro hne
    have hl : lf.length > 0 := List.length_pos.mpr hne
    unfold snapctl.setup_adcs
    rw [if_pos rfl]
    simp [if_pos hl]
  · intro hne
    have hf : ff.length > 0 := List.length_pos.mpr hne
    unfold snapctl.setup_adcs
    rw [if_pos rfl]
    simp [if_pos hf]
  · intro hne
    have hr : rf.length > 0 := List.length_pos.mpr hne
    unfold snapctl.setup_adcs
    rw [if_pos rfl]
    simp [if_pos hr]
  · unfold snapctl.setup_adcs
    rw [if_pos rfl]
    split_ifs <;> simp
  · simp [snapctl.startup]

/-- C8 witness: a locked run with line-clock failure on lane 2 and ramp
failure on lane 3 warns, finishes calibration and reaches the clock
estimate. -/
theorem degraded_cal_warns_witness :
    (snapctl.setup_adcs 2 ⟨true, [2], [], [3], 1, 0, 200⟩).2 = true
      ∧ Event.setDemux 2 ∈ (snapctl.setup_adcs 2 ⟨true, [2], [], [3], 1, 0, 200⟩).1
      ∧ Event.selectInput [1, 1, 1, 1]
          ∈ (snapctl.setup_adcs 2 ⟨true, [2], [], [3], 1, 0, 200⟩).1
      ∧ Event.setGain 4 ∈ (snapctl.setup_adcs 2 ⟨true, [2], [], [3], 1, 0, 200⟩).1
      ∧ (([2] : List Nat) ≠ [] →
          Event.logWarning "alignLineClock failed"
            ∈ (snapctl.setup_adcs 2 ⟨true, [2], [], [3], 1, 0, 200⟩).1)
      ∧ (([] : List Nat) ≠ [] →
          Event.logWarning "alignFrameClock failed"
            ∈ (snapctl.setup_adcs 2 ⟨true, [2], [], [3], 1, 0, 200⟩).1)
      ∧ (([3] : List Nat) ≠ [] →
          Event.logWarning "rampTest failed"
            ∈ (snapctl.setup_adcs 2 ⟨true, [2], [], [3], 1, 0, 200⟩).1)
      ∧ Event.logError "MMCM not locked."
          ∉ (snapctl.setup_adcs 2 ⟨true, [2], [], [3], 1, 0, 200⟩).1
      ∧ Event.estimateClock ∈ snapctl.startup 2 0 0 ⟨true, [2], [], [3], 1, 0, 200⟩ :=
  degraded_cal_warns 2 0 0 ⟨true, [2], [], [3], 1, 0, 200⟩ rfl

/-- C9 (amended): in the final calibration steps only the demux channel
count follows the caller's configuration; the snapctl bring-up applies a
fixed built-in gain of 4 and the fixed input routing [1, 1, 1, 1]
regardless of the caller's request, while the snap_bringup variant applies
the caller-requested gain but the fixed input routings [1, 1, 2, 2] and
[2, 2, 3, 3]. -/
theorem gain_and_routing_fixed (channels : Int) (env : Env)
    (h : env.adc16Locked = true) :
    (snapctl.setup_adcs channels env).1.filter isSetGain = [Event.setGain 4]
      ∧ (snapctl.setup_adcs channels env).1.filter isSelectInput
          = [Event.selectInput [1, 1, 1, 1]]
      ∧ Event.setDemux channels ∈ (snapctl.setup_adcs channels env).1
      ∧ ∀ ch g : Int,
          (snap_bringup.setup_adcs ch g).filter isSetGain = [Event.setGain g]
            ∧ (snap_bringup.setup_adcs ch g).filter isSelectInput
              = [Event.selectInput [1, 1, 2, 2], Event.selectInput [2, 2, 3, 3]] := by
  obtain ⟨locked, lf, ff, rf, link, ovf, clk⟩ := env
  subst h
  refine ⟨?_, ?_, ?_, fun ch g => ⟨rfl, rfl⟩⟩
  · unfold snapctl.setup_adcs
    rw [if_pos rfl]
    split_ifs <;> rfl
  · unfold snapctl.setup_adcs
    rw [if_pos rfl]
    split_ifs <;> rfl
  · unfold snapctl.setup_adcs
    rw [if_pos rfl]
    split_ifs <;> simp

/-- C9 witness: a concrete locked run. -/
theorem gain_and_routing_fixed_witness :
    (snapctl.setup_adcs 2 ⟨true, [], [], [], 1, 0, 200⟩).1.filter isSetGain
        = [Event.setGain 4]
      ∧ (snapctl.setup_adcs 2 ⟨true, [], [], [], 1, 0, 200⟩).1.filter isSelectInput
          = [Event.selectInput [1, 1, 1, 1]]
      ∧ Event.setDemux 2 ∈ (snapctl.setup_adcs 2 ⟨true, [], [], [], 1, 0, 200⟩).1
      ∧ ∀ ch g : Int,
          (snap_bringup.setup_adcs ch g).filter isSetGain = [Event.setGain g]
            ∧ (snap_bringup.setup_adcs ch g).filter isSelectInput
              = [Event.selectInput [1, 1, 2, 2], Event.selectInput [2, 2, 3, 3]] :=
  gain_and_routing_fixed 2 ⟨true, [], [], [], 1, 0, 200⟩ rfl

/-- C9 counterexample: two bring-up invocations with different operating
configurations (2 and 7 channels) both apply the same built-in gain 4 and
the same built-in routing [1, 1, 1, 1] — the applied gain and routing are
fixed values, not the caller's configuration. -/
theorem gain_and_routing_fixed_cx :
    (snapctl.setup_adcs 2 ⟨true, [], [], [], 1, 0, 200⟩).1.filter isSetGain
        = [Event.setGain 4]
      ∧ (snapctl.setup_adcs 7 ⟨true, [], [], [], 1, 0, 200⟩).1.filter isSetGain
        = [Event.setGain 4]
      ∧ (snapctl.setup_adcs 7 ⟨true, [], [], [], 1, 0, 200⟩).1.filter isSelectInput
        = [Event.selectInput [1, 1, 1, 1]] := by
  decide

/-- C10: when the lock check fails, `setup_adcs` has already forced
demultiplexing to full interleave: the only `setDemux` call in the trace
is `setDemux 1`, no input select and no gain set occur, the function
returns False, and the trace ends at the error log — no further hardware
action happens in the calibration routine. -/
theorem lock_fail_leaves_full_interleave (channels : Int) (env : Env)
    (h : env.adc16Locked = false) :
    (snapctl.setup_adcs channels env).2 = false
      ∧ (snapctl.setup_adcs channels env).1.filter isSetDemux
          = [Event.setDemux 1]
      ∧ (snapctl.setup_adcs channels env).1.filter isSelectInput = []
      ∧ (snapctl.setup_adcs channels env).1.filter isSetGain = []
      ∧ (snapctl.setup_adcs channels env).1.getLast?
          = some (Event.logError "MMCM not locked.") := by
  obtain ⟨locked, lf, ff, rf, link, ovf, clk⟩ := env
  subst h
  exact ⟨rfl, rfl, rfl, rfl, rfl⟩

/-- C10 witness: a concrete unlocked run with a configured channel count
of 2 is left at demux factor 1. -/
theorem lock_fail_leaves_full_interleave_witness :
    (snapctl.setup_adcs 2 ⟨false, [4], [], [], 1, 0, 200⟩).2 = false
      ∧ (snapctl.setup_adcs 2 ⟨false, [4], [], [], 1, 0, 200⟩).1.filter isSetDemux
          = [Event.setDemux 1]
      ∧ (snapctl.setup_adcs 2 ⟨false, [4], [], [], 1, 0, 200⟩).1.filter isSelectInput
          = []
      ∧ (snapctl.setup_adcs 2 ⟨false, [4], [], [], 1, 0, 200⟩).1.filter isSetGain
          = []
      ∧ (snapctl.setup_adcs 2 ⟨false, [4], [], [], 1, 0, 200⟩).1.getLast?
          = some (Event.logError "MMCM not locked.") :=
  lock_fail_leaves_full_interleave 2 ⟨false, [4], [], [], 1, 0, 200⟩ rfl
